import Mathlib

/-!
Shallow embedding of the billing-acquisition core of the scut-notipay
repository: numeric extraction and the GZIC bill fetch, the DXC
redirect-chain fetch, the retry loop, the token cache read, the
second-chance token refresh, the batched collection scheduler and the
notification gate.  Machine floats are modelled as `Option ℚ` where
`none` stands for NaN; network responses are passed in as explicit data.
-/

namespace NotiPay

/-- The empty string, standing for a JS falsy string value. -/
def emptyStr : String := ""

/-- The literal string 0 used as parse fallback in the source. -/
def zeroStr : String := "0"

/-- Separator for the comma-encoded water field. -/
def commaSep : String := ","

/-- Embeds NORETRY_ERROR_PREFIX from constants, the marker the retry loop
uses to recognise non-retriable failures. -/
def noRetryMarker : String := "[NORETRY]"

/-- Prefix test on strings, the character-level embedding of the JS
startsWith used by the retry loop. -/
def strStartsWith (s pre : String) : Bool :=
  pre.data.isPrefixOf s.data

/-- Whitespace trim at both ends, the character-level embedding of the
JS trim applied to balance fields. -/
def trimStr (s : String) : String :=
  String.mk (((s.data.dropWhile Char.isWhitespace).reverse.dropWhile
    Char.isWhitespace).reverse)

/-- Splitter body: scan the text, cutting at every match of the
non-empty pattern; fuel bounds the number of steps and is always given
as the text length, which suffices because every step consumes at least
one character. -/
def splitAuxF (pat : List Char) : Nat → List Char → List Char → List (List Char)
  | _, acc, [] => [acc.reverse]
  | 0, acc, rest => [acc.reverse ++ rest]
  | fuel + 1, acc, c :: cs =>
    if pat.isPrefixOf (c :: cs) then
      acc.reverse :: splitAuxF pat fuel [] ((c :: cs).drop pat.length)
    else splitAuxF pat fuel (c :: acc) cs

/-- Split a string at every occurrence of a non-empty pattern, the
character-level embedding of the JS split used on the water field and
of the single-occurrence replace of the retry loop. -/
def splitOnStr (s pat : String) : List String :=
  (splitAuxF pat.data s.data.length [] s.data).map String.mk

/-- Value of a digit character. -/
def digitVal (c : Char) : Nat := c.toNat - 48

/-- Value of a digit string read left to right. -/
def digitsToNat (ds : List Char) : Nat :=
  ds.foldl (fun n c => 10 * n + digitVal c) 0

/-- Core of the JS parseFloat applied after an optional leading minus
sign: an integer part, an optional dot, a fraction part; `none` stands
for NaN.  The model covers sign, digits and dot, the full alphabet the
sources feed to parseFloat via the extraction pattern. -/
def parseFloatFrom (neg : Bool) (cs : List Char) : Option ℚ :=
  let intPart := cs.takeWhile Char.isDigit
  let rest := cs.dropWhile Char.isDigit
  let fracPart :=
    match rest with
    | '.' :: r => r.takeWhile Char.isDigit
    | _ => []
  if intPart.isEmpty && fracPart.isEmpty then none
  else
    let mag : ℚ :=
      (digitsToNat intPart : ℚ) + (digitsToNat fracPart : ℚ) / ((10 : ℚ) ^ fracPart.length)
    some (if neg then -mag else mag)

/-- JS parseFloat, restricted to the sign-digits-dot alphabet; `none`
stands for NaN. -/
def parseFloat (s : String) : Option ℚ :=
  match s.data with
  | '-' :: rest => parseFloatFrom true rest
  | cs => parseFloatFrom false cs

/-- Characters matched by the extraction pattern of the source, a class
of minus, dot and decimal digits. -/
def isNumChar (c : Char) : Bool := c = '-' || c = '.' || c.isDigit

/-- First maximal run of pattern characters in a character list,
embedding the first-match semantics of the extraction pattern. -/
def firstNumRunAux : List Char → Option (List Char)
  | [] => none
  | c :: cs =>
    if isNumChar c then some (c :: cs.takeWhile isNumChar)
    else firstNumRunAux cs

/-- First match of the extraction pattern in a string, or `none` when
the pattern does not match anywhere. -/
def firstNumRun (s : String) : Option String :=
  (firstNumRunAux s.data).map (fun l => String.mk l)

/-- Last comma-separated segment of a field, with the falsy-empty
fallback to the literal 0 as in the source. -/
def lastCommaSeg (s : String) : String :=
  let seg := (splitOnStr s commaSep).getLastD emptyStr
  if seg = emptyStr then zeroStr else seg

/-- Embeds parseBill from getBillsGZIC: trim the field, for water only
the last comma segment, match the extraction pattern, parseFloat the
match or the literal 0 when there is no match.  `none` stands for NaN. -/
def parseBill (info : String) (isWater : Bool) : Option ℚ :=
  let raw := if isWater then trimStr (lastCommaSeg info) else trimStr info
  match firstNumRun raw with
  | some m => parseFloat m
  | none => parseFloat zeroStr

/-- HTTP-level part of a fetched response. -/
structure HttpMeta where
  ok : Bool
  status : Nat
  statusText : String
deriving DecidableEq

/-- Application-level JSON body of a GZIC fee-item response. -/
structure BillBody where
  msg : String
  code : Int
  info : String
  room : String
deriving DecidableEq

/-- One GZIC fee-item sub-response. -/
structure GZICResp where
  http : HttpMeta
  body : BillBody
deriving DecidableEq

/-- Parsed billing result of one fetch; balances are `Option ℚ` with
`none` standing for NaN. -/
structure BillResult where
  electric : Option ℚ
  water : Option ℚ
  ac : Option ℚ
  room : String
deriving DecidableEq

/-- Tag at the head of every application-level error message of the
GZIC fetch. -/
def apiErrorTag : String := "API Error "

/-- Error message for a failed HTTP sub-response of the GZIC fetch,
marked non-retriable exactly when the status is 401. -/
def httpFailMsg (r : HttpMeta) : String :=
  (if r.status = 401 then noRetryMarker else emptyStr) ++
    "HTTP " ++ toString r.status ++ ": " ++ r.statusText

/-- Error message for a GZIC body carrying a non-success code. -/
def apiFailMsg (b : BillBody) : String :=
  apiErrorTag ++ toString b.code ++ ": " ++ b.msg

/-- Embeds getBillsGZIC: three concurrent fee-item requests; the first
response that is not ok fails the fetch with an HTTP error, 401 marked
non-retriable; otherwise the first body with code different from 200
fails it with an application error; otherwise the three balances are
extracted and the room label taken from the first body. -/
def getBillsGZIC (r1 r2 r3 : GZICResp) : Except String BillResult :=
  match [r1, r2, r3].find? (fun r => !r.http.ok) with
  | some bad => .error (httpFailMsg bad.http)
  | none =>
    match [r1.body, r2.body, r3.body].find? (fun d => d.code != 200) with
    | some bad => .error (apiFailMsg bad)
    | none =>
      .ok ⟨parseBill r1.body.info false, parseBill r3.body.info true,
           parseBill r2.body.info false, r1.body.room⟩

/-- Plain http scheme, rewritten by httpToHttps. -/
def httpScheme : String := "http:"

/-- Https scheme substituted by httpToHttps. -/
def httpsScheme : String := "https:"

/-- Name of the session cookie captured from the second hop. -/
def cookieName : String := "JSESSIONID="

/-- Text a missing header renders to inside a template literal. -/
def nullText : String := "null"

/-- Fallback message for a falsy application-level message field. -/
def unknownErrText : String := "Unknown error"

/-- Application-level success sentinel of the DXC data endpoints. -/
def okCode : String := "200"

/-- Endpoint tag used in userInfo error messages. -/
def userInfoTag : String := "userInfo"

/-- Endpoint tag used in ammeter-balance error messages. -/
def ammeterTag : String := "ammeterBalanceResponse"

/-- Endpoint tag used in water-balance error messages. -/
def waterTag : String := "waterBalance"

/-- One hop of the DXC redirect chain: its HTTP status, its location
header, its set-cookie header; a header absent from the response is
`none`. -/
structure HopResp where
  status : Nat
  location : Option String
  setCookie : Option String
deriving DecidableEq

/-- One DXC data-endpoint response with its application-level status
code and optional message field. -/
structure ApiResp where
  ok : Bool
  status : Nat
  statusCode : String
  message : Option String
deriving DecidableEq

/-- The responses a DXC fetch observes on its seven requests, plus the
payload fields the success path reads.  The ammeter balance arrives as
an already-numeric JSON field, the water balance as a string. -/
structure DXCEnv where
  redirectResp : HopResp
  thirdLoginResp : HopResp
  authorizeResp : HopResp
  getCodeResp : HopResp
  userInfoResp : ApiResp
  roomName : String
  ammeterResp : ApiResp
  ammeterLeftMoney : ℚ
  waterResp : ApiResp
  waterLeftMoney : String
deriving DecidableEq

/-- Embeds httpToHttps: rewrite a leading http scheme to https, passing
a missing location through. -/
def httpToHttps (url : Option String) : Option String :=
  url.map (fun s =>
    if strStartsWith s httpScheme then httpsScheme ++ String.mk (s.data.drop 5)
    else s)

/-- Embeds the JSESSIONID capture of the source pattern: the first
position where the cookie name is followed by at least one character
other than a semicolon yields the run of such characters. -/
def jsessionAux : List Char → Option (List Char)
  | [] => none
  | c :: cs =>
    if cookieName.data.isPrefixOf (c :: cs) then
      let cap := ((c :: cs).drop cookieName.length).takeWhile (fun ch => ch ≠ ';')
      if cap.isEmpty then jsessionAux cs else some cap
    else jsessionAux cs

/-- Session identifier extracted from an optional set-cookie header;
`none` when the header is absent or the pattern does not match, the
condition under which the source keeps the falsy empty identifier. -/
def jsessionFrom (setCookie : Option String) : Option String :=
  match setCookie with
  | none => none
  | some s => (jsessionAux s.data).map (fun l => String.mk l)

/-- Expected target of the final redirect hop. -/
def indexPath : String := "/sdms-weixin-pay-sp/newWeixin/index.html"

/-- Text of an optional location header inside an error message; a
missing header prints as null in the source template literal. -/
def locText : Option String → String
  | none => nullText
  | some s => s

/-- Error message of the first hop failing its status check. -/
def redirectFailMsg (s : Nat) : String :=
  "Get redirect failed: Expected 302, got " ++ toString s

/-- Error message of the first hop lacking a location header. -/
def redirectNoLocMsg : String := "Get redirect: No redirect location found"

/-- Error message of the second hop lacking the session cookie. -/
def thirdLoginNoCookieMsg : String := "Get thirdLogin: Failed to get JSESSIONID cookie"

/-- Error message of the second hop failing its status check. -/
def thirdLoginFailMsg (s : Nat) : String :=
  "Get thirdLogin failed: Expected 302, got " ++ toString s

/-- Error message of the second hop lacking a location header. -/
def thirdLoginNoLocMsg : String := "Get thirdLogin: No redirect location found"

/-- Error message of the third hop failing its status check. -/
def authorizeFailMsg (s : Nat) : String :=
  "Get authorize failed: Expected 302, got " ++ toString s

/-- Error message of the third hop lacking a location header. -/
def authorizeNoLocMsg : String := "Get authorize: No redirect location found"

/-- Error message of the fourth hop failing its status check. -/
def getCodeFailMsg (s : Nat) : String :=
  "Get getCode failed: Expected 302, got " ++ toString s

/-- Error message of the fourth hop redirecting to an unexpected
target. -/
def getCodeWrongTargetMsg (loc : Option String) : String :=
  "Get getCode failed: Expected redirect to index, got " ++ locText loc

/-- Marker for a data-endpoint HTTP failure, non-retriable exactly when
the status is 401. -/
def noRetryIf (s : Nat) : String :=
  if s = 401 then noRetryMarker else emptyStr

/-- Fallback applied to a falsy message field of a data endpoint. -/
def jsOrUnknown (m : Option String) : String :=
  match m with
  | none => unknownErrText
  | some s => if s = emptyStr then unknownErrText else s

/-- Error message of a data-endpoint HTTP failure on the named
endpoint. -/
def dxcHttpFailMsg (tag : String) (s : Nat) : String :=
  noRetryIf s ++ "Get " ++ tag ++ " failed: HTTP " ++ toString s

/-- Error message of a data-endpoint application failure on the named
endpoint. -/
def dxcApiFailMsg (tag : String) (m : Option String) : String :=
  "Get " ++ tag ++ " API Error: " ++ jsOrUnknown m

/-- Embeds getBillsDXC: the four-hop redirect chain, each hop checked
in source order, a missing cookie checked before the status on the
second hop and the final target compared against the fixed index path;
then the three data endpoints, each checked for HTTP success with the
401 marker and for the application status code; the air-conditioning
balance of this campus is the constant 0. -/
def getBillsDXC (env : DXCEnv) : Except String BillResult :=
  if env.redirectResp.status ≠ 302 then
    .error (redirectFailMsg env.redirectResp.status)
  else match httpToHttps env.redirectResp.location with
  | none => .error redirectNoLocMsg
  | some _ =>
    match jsessionFrom env.thirdLoginResp.setCookie with
    | none => .error thirdLoginNoCookieMsg
    | some _ =>
      if env.thirdLoginResp.status ≠ 302 then
        .error (thirdLoginFailMsg env.thirdLoginResp.status)
      else match httpToHttps env.thirdLoginResp.location with
      | none => .error thirdLoginNoLocMsg
      | some _ =>
        if env.authorizeResp.status ≠ 302 then
          .error (authorizeFailMsg env.authorizeResp.status)
        else match httpToHttps env.authorizeResp.location with
        | none => .error authorizeNoLocMsg
        | some _ =>
          if env.getCodeResp.status ≠ 302 then
            .error (getCodeFailMsg env.getCodeResp.status)
          else if env.getCodeResp.location ≠ some indexPath then
            .error (getCodeWrongTargetMsg env.getCodeResp.location)
          else if env.userInfoResp.ok = false then
            .error (dxcHttpFailMsg userInfoTag env.userInfoResp.status)
          else if env.userInfoResp.statusCode ≠ okCode then
            .error (dxcApiFailMsg userInfoTag env.userInfoResp.message)
          else if env.ammeterResp.ok = false then
            .error (dxcHttpFailMsg ammeterTag env.ammeterResp.status)
          else if env.ammeterResp.statusCode ≠ okCode then
            .error (dxcApiFailMsg ammeterTag env.ammeterResp.message)
          else if env.waterResp.ok = false then
            .error (dxcHttpFailMsg waterTag env.waterResp.status)
          else if env.waterResp.statusCode ≠ okCode then
            .error (dxcApiFailMsg waterTag env.waterResp.message)
          else
            .ok ⟨some env.ammeterLeftMoney, parseFloat env.waterLeftMoney,
                 some 0, env.roomName⟩

/-- Base inter-attempt delay of the retry loop, in milliseconds. -/
def baseDelayMs : Nat := 500

/-- Fallback message thrown when the loop body never ran; unreachable
for a natural retry count, which always allows at least one attempt. -/
def exhaustedMsg : String := "Failed to fetch bills after all retries"

/-- Remove the first occurrence of a pattern from a string, embedding
the single-replacement semantics of the source. -/
def replaceFirst (s pat : String) : String :=
  match splitOnStr s pat with
  | [] => s
  | [x] => x
  | x :: y :: rest => x ++ y ++ String.join (rest.map (fun r => pat ++ r))

deriving instance DecidableEq for Except

/-- Observable trace of one run of the retry loop: the value returned
or error thrown, the number of attempts made, and the list of
inter-attempt delays slept, in order. -/
structure RunTrace where
  outcome : Except String BillResult
  attemptsMade : Nat
  delays : List Nat
deriving DecidableEq

/-- Body of the retry loop of getBills.  The fuel argument is the
number of loop iterations still permitted, retryCount + 1 - attempt in
the source; each iteration runs the campus fetch for the current
attempt, returns on success, breaks at once on an error carrying the
non-retriable marker while keeping the marker on the thrown message,
and otherwise strips the marker, sleeps a delay linear in the attempt
number when attempts remain, and rethrows the last error when they do
not. -/
def retryGo (outcomes : Nat → Except String BillResult) (attempt : Nat) :
    Nat → RunTrace
  | 0 => ⟨.error exhaustedMsg, 0, []⟩
  | fuel + 1 =>
    match outcomes attempt with
    | .ok r => ⟨.ok r, 1, []⟩
    | .error e =>
      if strStartsWith e noRetryMarker then ⟨.error e, 1, []⟩
      else
        let stripped := replaceFirst e noRetryMarker
        if fuel = 0 then ⟨.error stripped, 1, []⟩
        else
          let t := retryGo outcomes (attempt + 1) fuel
          ⟨t.outcome, t.attemptsMade + 1, baseDelayMs * (attempt + 1) :: t.delays⟩

/-- Embeds the retry loop of getBills, run from attempt 0 with
retryCount + 1 iterations permitted; outcomes gives the result of each
campus fetch attempt. -/
def getBills (outcomes : Nat → Except String BillResult) (retryCount : Nat) :
    RunTrace :=
  retryGo outcomes 0 (retryCount + 1)

/-- Campus variants of the source. -/
inductive Campus
  | GZIC
  | DXC
deriving DecidableEq

/-- Stored token columns of one student row; a NULL column is `none`.
The ISO expiry timestamp is modelled as epoch milliseconds, the value
the source recovers from it before comparing. -/
structure TokenRow where
  access_token : Option String
  tgc : Option String
  loc_session : Option String
  token_expires_at : Option Int
deriving DecidableEq

/-- Safety margin of the token cache read, in milliseconds. -/
def tokenRefreshWindowMs : Int := 5 * 60 * 1000

/-- Embeds getTokens: absent row or any falsy column yields nothing, a
stored expiry less than the safety margin away from now yields nothing,
and otherwise the stored triple is returned.  The falsy test of the
source treats a NULL column and an empty string alike. -/
def getTokens (row : Option TokenRow) (nowMs : Int) :
    Option (String × String × String) :=
  match row with
  | none => none
  | some r =>
    match r.access_token, r.tgc, r.loc_session, r.token_expires_at with
    | some a, some t, some l, some expMs =>
      if a = emptyStr ∨ t = emptyStr ∨ l = emptyStr then none
      else if expMs - nowMs < tokenRefreshWindowMs then none
      else some (a, t, l)
    | _, _, _, _ => none

/-- Stored credentials of one user. -/
structure Creds where
  cardId : String
  password : String
deriving DecidableEq

/-- Fields of one login result the refresh path reads. -/
structure LoginOut where
  access_token : String
  tgc : String
  locSession : String
  expires_in : Int
deriving DecidableEq

/-- Message thrown when no credentials are stored. -/
def noCredsMsg : String := "No credentials found for user"

/-- Message thrown when a login attempt returns nothing. -/
def loginFailedMsg : String := "Login failed"

/-- Message thrown when no campus is stored. -/
def noCampusMsg : String := "No campus found for user"

/-- Oracle environment of one run of the token-refresh path: the cached
token triple the database returns, the stored credentials and campus,
and the results of the successive login and fetch calls the run makes,
indexed by call number. -/
structure RefreshEnv where
  cachedTokens : Option (String × String × String)
  credentials : Option Creds
  campus : Option Campus
  loginResult : Nat → Option LoginOut
  fetchResult : Nat → Except String BillResult

/-- Observable trace of one run of the token-refresh path: the final
result, and how many fetch calls, login calls and cache invalidations
the run made. -/
structure RefreshTrace where
  result : Except String BillResult
  fetchCalls : Nat
  loginCalls : Nat
  invalidations : Nat
deriving DecidableEq

/-- Embeds getValidToken: return the cached triple when present, else
log in with the stored credentials, failing when credentials are absent
or the login returns nothing.  The second component counts login
calls. -/
def getValidTokenRun (env : RefreshEnv) :
    Except String (String × String × String) × Nat :=
  match env.cachedTokens with
  | some t => (.ok t, 0)
  | none =>
    match env.credentials with
    | none => (.error noCredsMsg, 0)
    | some _ =>
      match env.loginResult 0 with
      | none => (.error loginFailedMsg, 1)
      | some lr => (.ok (lr.access_token, lr.tgc, lr.locSession), 1)

/-- The guarded block of getBillsWithTokenRefresh: obtain a token, read
the campus, run the fetch.  Returns the result with the login and fetch
call counts. -/
def tryRun (env : RefreshEnv) : Except String BillResult × Nat × Nat :=
  match getValidTokenRun env with
  | (.error e, l) => (.error e, l, 0)
  | (.ok _, l) =>
    match env.campus with
    | none => (.error noCampusMsg, l, 0)
    | some _ => (env.fetchResult 0, l, 1)

/-- Embeds getBillsWithTokenRefresh: run the guarded block; on any
failure clear the cached token, read the stored credentials, log in
once from scratch, store the fresh token, and run the fetch exactly
once more, surfacing whatever that second call produces. -/
def getBillsWithTokenRefresh (env : RefreshEnv) : RefreshTrace :=
  match tryRun env with
  | (.ok r, l, f) => ⟨.ok r, f, l, 0⟩
  | (.error _, l, f) =>
    match env.credentials with
    | none => ⟨.error noCredsMsg, f, l, 1⟩
    | some _ =>
      match env.loginResult l with
      | none => ⟨.error loginFailedMsg, f, l + 1, 1⟩
      | some _ =>
        match env.campus with
        | none => ⟨.error noCampusMsg, f, l + 1, 1⟩
        | some _ => ⟨env.fetchResult f, f + 1, l + 1, 1⟩

/-- Collected billing data of one student, the per-account Collection
Result of one cycle; balances again use `none` for NaN, and err keeps
the failure message of a failed collection. -/
structure CollectedData where
  qqId : String
  name : Option String
  electric : Option ℚ
  water : Option ℚ
  ac : Option ℚ
  room : String
  success : Bool
  err : Option String
deriving DecidableEq

/-- One stored notification rule with optional threshold; chat fields
are optional strings as in the database row. -/
structure NotificationRow where
  chat_type : Option String
  chat_id : Option String
  hour : Nat
  threshold : Option ℚ
deriving DecidableEq

/-- Truthiness of an optional string under the JS test of the source: a
missing value and the empty string are falsy. -/
def jsTruthy (s : Option String) : Bool :=
  match s with
  | none => false
  | some x => x != emptyStr

/-- One balance passes the threshold gate when it is at least -10 and
strictly below the threshold; a NaN balance never passes, as every
comparison against NaN is false. -/
def inWindow (b : Option ℚ) (th : ℚ) : Bool :=
  match b with
  | none => false
  | some x => decide (-10 ≤ x) && decide (x < th)

/-- Threshold gate of one rule against collected balances: a rule
without threshold always passes, a rule with threshold passes when any
of the three balances is inside the window. -/
def thresholdAllows (d : CollectedData) (n : NotificationRow) : Bool :=
  match n.threshold with
  | none => true
  | some th => inWindow d.electric th || inWindow d.water th || inWindow d.ac th

/-- A message is dispatched only when both chat fields are truthy. -/
def chatTargetOk (n : NotificationRow) : Bool :=
  jsTruthy n.chat_type && jsTruthy n.chat_id

/-- Embeds sendNotificationForStudent as the list of rules a message is
sent for: nothing at all when the collection did not succeed, otherwise
the due rules passing both the threshold gate and the chat-target
check, in order. -/
def sendNotificationForStudent (d : CollectedData)
    (rules : List NotificationRow) : List NotificationRow :=
  if d.success = false then []
  else rules.filter (fun n => thresholdAllows d n && chatTargetOk n)

/-- One bound account row as the scheduler loads it. -/
structure Student where
  qq_id : String
  name : Option String
deriving DecidableEq

/-- Message recorded when an account has no stored credentials. -/
def noCredsShortMsg : String := "No credentials found"

/-- Embeds collectStudentData: an account without credentials yields a
failed result at once; otherwise the fetch with token refresh runs for
that account alone and its outcome alone decides between a successful
result carrying the parsed balances and a failed result carrying the
error. -/
def collectStudentData (creds : String → Option Creds)
    (envOf : String → RefreshEnv) (s : Student) : CollectedData :=
  match creds s.qq_id with
  | none => ⟨s.qq_id, s.name, some 0, some 0, some 0, emptyStr, false, some noCredsShortMsg⟩
  | some _ =>
    match (getBillsWithTokenRefresh (envOf s.qq_id)).result with
    | .ok r => ⟨s.qq_id, s.name, r.electric, r.water, r.ac, r.room, true, none⟩
    | .error e => ⟨s.qq_id, s.name, some 0, some 0, some 0, emptyStr, false, some e⟩

/-- Batch partition of the scheduler loop, with fuel bounding the
number of iterations; the scheduler calls it with enough fuel.  For a
zero batch size the source loop would never terminate, so every account
of the partition assumes a positive size. -/
def batchesGo (b : Nat) : Nat → List α → List (List α)
  | _, [] => []
  | 0, _ :: _ => []
  | fuel + 1, x :: xs => (x :: xs).take b :: batchesGo b fuel ((x :: xs).drop b)

/-- Embeds the slicing loop of collectData: consecutive slices of the
student list of the given batch size. -/
def batches (b : Nat) (l : List α) : List (List α) :=
  batchesGo b l.length l

/-- Embeds collectData: process the batches in order, each account of a
batch independently, and concatenate the per-batch results. -/
def collectData (creds : String → Option Creds)
    (envOf : String → RefreshEnv) (b : Nat) (students : List Student) :
    List CollectedData :=
  ((batches b students).map
    (fun batch => batch.map (collectStudentData creds envOf))).flatten

/-- Whether an Except value carries a success. -/
def exceptOk (x : Except String BillResult) : Bool :=
  match x with
  | .ok _ => true
  | .error _ => false

/-! Helper lemmas shared by several claim theorems. -/

/-- A character list is a Boolean prefix of itself extended by any
tail. -/
theorem isPrefixOf_append_self (l t : List Char) :
    l.isPrefixOf (l ++ t) = true := by
  induction l with
  | nil => simp [List.isPrefixOf]
  | cons c cs ih => simp [List.isPrefixOf, ih]

/-- A string extended on the right starts with itself. -/
theorem strStartsWith_append_self (x y : String) :
    strStartsWith (x ++ y) x = true := by
  show x.data.isPrefixOf ((x ++ y).data) = true
  rw [String.data_append]
  exact isPrefixOf_append_self x.data y.data

/-- A passing threshold window yields a balance value inside the
half-open interval. -/
theorem inWindow_spec (b : Option ℚ) (th : ℚ) (h : inWindow b th = true) :
    ∃ q, b = some q ∧ -10 ≤ q ∧ q < th := by
  cases b with
  | none => simp [inWindow] at h
  | some x =>
    simp only [inWindow, Bool.and_eq_true, decide_eq_true_eq] at h
    exact ⟨x, rfl, h.1, h.2⟩

/-- C2: for every user, the token cache read returns the stored triple
exactly when a row exists, each stored column is present and non-falsy,
and the stored expiry is at least the five-minute safety margin beyond
the current time; in every other case, including an expiry that lies in
the future but closer than the margin, it returns absent.  A column is
treated as missing by the falsy test of the source, which identifies a
NULL column with the empty string. -/
theorem c2_getTokens_characterisation (row : Option TokenRow) (nowMs : Int)
    (a t l : String) :
    getTokens row nowMs = some (a, t, l) ↔
      ∃ r expMs, row = some r ∧
        r.access_token = some a ∧ r.tgc = some t ∧ r.loc_session = some l ∧
        r.token_expires_at = some expMs ∧
        a ≠ emptyStr ∧ t ≠ emptyStr ∧ l ≠ emptyStr ∧
        tokenRefreshWindowMs ≤ expMs - nowMs := by
  cases row with
  | none => simp [getTokens]
  | some r =>
    obtain ⟨a0, t0, l0, e0⟩ := r
    cases a0 <;> cases t0 <;> cases l0 <;> cases e0 <;>
      simp [getTokens] <;> aesop

/-- C2 witness: a fresh full row yields its triple, and a row expiring
sooner than the margin, although still in the future, yields absent. -/
theorem c2_witness :
    getTokens (some ⟨some "a", some "t", some "l", some 600000⟩) 0 =
      some ("a", "t", "l") ∧
    getTokens (some ⟨some "a", some "t", some "l", some 299999⟩) 0 = none := by
  constructor
  · exact (c2_getTokens_characterisation
      (some ⟨some "a", some "t", some "l", some 600000⟩) 0 "a" "t" "l").mpr
      ⟨⟨some "a", some "t", some "l", some 600000⟩, 600000, rfl, rfl, rfl, rfl,
        rfl, by decide, by decide, by decide, by decide⟩
  · decide

/-- C8: no notification is ever sent for an account whose collection
did not succeed; the rule list is not consulted at all in that case. -/
theorem c8_no_notification_on_failure (d : CollectedData)
    (rules : List NotificationRow) (h : d.success = false) :
    sendNotificationForStudent d rules = [] := by
  simp [sendNotificationForStudent, h]

/-- C8 witness: a failed collection with a rule that would otherwise
fire sends nothing. -/
theorem c8_witness :
    sendNotificationForStudent
      ⟨"1", none, some 1, some 1, some 1, "r", false, some "boom"⟩
      [⟨some "private", some "1", 8, some 10⟩] = [] :=
  c8_no_notification_on_failure
    ⟨"1", none, some 1, some 1, some 1, "r", false, some "boom"⟩
    [⟨some "private", some "1", 8, some 10⟩] rfl

/-- C10: whenever a message is sent for a rule that has a threshold,
some balance of the collected data lies in the half-open window from
-10 inclusive up to the threshold exclusive; in particular a balance
strictly below -10 never triggers a threshold notification on its
own. -/
theorem c10_threshold_window (d : CollectedData) (rules : List NotificationRow)
    (n : NotificationRow) (th : ℚ)
    (hmem : n ∈ sendNotificationForStudent d rules)
    (hth : n.threshold = some th) :
    ∃ q : ℚ, (d.electric = some q ∨ d.water = some q ∨ d.ac = some q) ∧
      -10 ≤ q ∧ q < th := by
  unfold sendNotificationForStudent at hmem
  split at hmem
  · simp at hmem
  · rw [List.mem_filter] at hmem
    have hmem2 := hmem.2
    simp only [Bool.and_eq_true] at hmem2
    have hall : thresholdAllows d n = true := hmem2.1
    rw [thresholdAllows, hth] at hall
    simp only [Bool.or_eq_true] at hall
    rcases hall with h | h
    · rcases h with h | h
      · obtain ⟨q, hq, h1, h2⟩ := inWindow_spec _ _ h
        exact ⟨q, Or.inl hq, h1, h2⟩
      · obtain ⟨q, hq, h1, h2⟩ := inWindow_spec _ _ h
        exact ⟨q, Or.inr (Or.inl hq), h1, h2⟩
    · obtain ⟨q, hq, h1, h2⟩ := inWindow_spec _ _ h
      exact ⟨q, Or.inr (Or.inr hq), h1, h2⟩

/-- C10 witness: with threshold 10, an electric balance of 5 triggers
and lies in the window, while a collected datum whose only low balance
is -15 sends nothing. -/
theorem c10_witness :
    (∃ q : ℚ, ((some 5 : Option ℚ) = some q ∨ (some 100 : Option ℚ) = some q ∨
        (some 100 : Option ℚ) = some q) ∧ -10 ≤ q ∧ q < 10) ∧
    sendNotificationForStudent
      ⟨"1", none, some (-15), some 100, some 100, "r", true, none⟩
      [⟨some "private", some "1", 8, some 10⟩] = [] := by
  constructor
  · exact c10_threshold_window
      ⟨"1", none, some 5, some 100, some 100, "r", true, none⟩
      [⟨some "private", some "1", 8, some 10⟩]
      ⟨some "private", some "1", 8, some 10⟩ 10
      (by with_unfolding_all exact of_decide_eq_true rfl) rfl
  · with_unfolding_all exact of_decide_eq_true rfl

/-- C7: when a cached token exists but the fetch made with it fails,
the second-chance path invalidates the cache once, logs in exactly once
from scratch with the stored credentials, runs the fetch exactly one
more time, and surfaces whatever that second fetch produces, so a
second failure gives the account up for the cycle with no third
attempt at this layer. -/
theorem c7_second_chance (env : RefreshEnv) (tk : String × String × String)
    (cp : Campus) (c : Creds) (lr : LoginOut)
    (hcache : env.cachedTokens = some tk)
    (hcamp : env.campus = some cp)
    (hcred : env.credentials = some c)
    (hfail : ∃ e, env.fetchResult 0 = .error e)
    (hlogin : env.loginResult 0 = some lr) :
    getBillsWithTokenRefresh env = ⟨env.fetchResult 1, 2, 1, 1⟩ := by
  obtain ⟨e, he⟩ := hfail
  simp [getBillsWithTokenRefresh, tryRun, getValidTokenRun, hcache, hcamp,
    hcred, he, hlogin]

/-- Unfolding equation for one iteration of the retry loop. -/
theorem retryGo_succ (outcomes : Nat → Except String BillResult)
    (attempt fuel : Nat) :
    retryGo outcomes attempt (fuel + 1) =
      match outcomes attempt with
      | .ok r => ⟨.ok r, 1, []⟩
      | .error e =>
        if strStartsWith e noRetryMarker then ⟨.error e, 1, []⟩
        else
          if fuel = 0 then ⟨.error (replaceFirst e noRetryMarker), 1, []⟩
          else
            let t := retryGo outcomes (attempt + 1) fuel
            ⟨t.outcome, t.attemptsMade + 1, baseDelayMs * (attempt + 1) :: t.delays⟩ :=
  rfl

/-- The retry loop never makes more attempts than its fuel allows. -/
theorem retryGo_attempts_le (outcomes : Nat → Except String BillResult) :
    ∀ fuel attempt, (retryGo outcomes attempt fuel).attemptsMade ≤ fuel := by
  intro fuel
  induction fuel with
  | zero => intro attempt; simp [retryGo]
  | succ k ih =>
    intro attempt
    rw [retryGo_succ]
    cases houtc : outcomes attempt with
    | ok r => simp
    | error e =>
      by_cases hnr : strStartsWith e noRetryMarker
      · simp [hnr]
      · by_cases hk : k = 0
        · simp [hnr, hk]
        · simpa [hnr, hk] using Nat.succ_le_succ (ih (attempt + 1))

/-- When every attempt fails retriably, the loop runs through all the
fuel, sleeps the linear delays in order, and finally throws the last
error with the marker stripped. -/
theorem retryGo_all_retriable (outcomes : Nat → Except String BillResult)
    (err : Nat → String)
    (hout : ∀ i, outcomes i = .error (err i))
    (hnr : ∀ i, strStartsWith (err i) noRetryMarker = false) :
    ∀ fuel attempt, retryGo outcomes attempt (fuel + 1) =
      ⟨.error (replaceFirst (err (attempt + fuel)) noRetryMarker), fuel + 1,
        (List.range fuel).map (fun j => baseDelayMs * (attempt + 1 + j))⟩ := by
  intro fuel
  induction fuel with
  | zero =>
    intro attempt
    rw [retryGo_succ, hout attempt]
    simp [hnr attempt]
  | succ k ih =>
    intro attempt
    rw [retryGo_succ, hout attempt]
    simp only [hnr attempt, Bool.false_eq_true, if_false, Nat.succ_ne_zero]
    rw [ih (attempt + 1)]
    have harg : attempt + 1 + k = attempt + (k + 1) := by omega
    rw [harg]
    refine congrArg (RunTrace.mk _ (k + 1 + 1)) ?_
    rw [List.range_succ_eq_map, List.map_cons, List.map_map]
    refine congrArg (List.cons (baseDelayMs * (attempt + 1))) ?_
    refine List.map_congr_left (fun j hj => ?_)
    simp only [Function.comp_apply]
    exact congrArg (fun n => baseDelayMs * n) (by omega)

/-- C3: when every attempt fails with a retriable error, the retry loop
makes exactly retryCount + 1 attempts, the inter-attempt delays are the
base delay multiplied by the attempt number and hence strictly
increasing, and the loop finally raises the error of the last attempt;
moreover no run of the loop ever exceeds retryCount + 1 attempts. -/
theorem c3_retry_budget (outcomes : Nat → Except String BillResult)
    (err : Nat → String) (rc : Nat)
    (hout : ∀ i, outcomes i = .error (err i))
    (hnr : ∀ i, strStartsWith (err i) noRetryMarker = false) :
    getBills outcomes rc =
      ⟨.error (replaceFirst (err rc) noRetryMarker), rc + 1,
        (List.range rc).map (fun j => baseDelayMs * (j + 1))⟩ ∧
    ((List.range rc).map (fun j => baseDelayMs * (j + 1))).Pairwise (· < ·) ∧
    ∀ (outcomes2 : Nat → Except String BillResult) (rc2 : Nat),
      (getBills outcomes2 rc2).attemptsMade ≤ rc2 + 1 := by
  refine ⟨?_, ?_, ?_⟩
  · have h := retryGo_all_retriable outcomes err hout hnr rc 0
    rw [getBills, h, Nat.zero_add rc]
    refine congrArg (RunTrace.mk _ _) ?_
    refine List.map_congr_left (fun j hj => ?_)
    exact congrArg (fun n => baseDelayMs * n) (by omega)
  · refine List.Pairwise.map _ (fun a b hab => ?_) (List.pairwise_lt_range rc)
    simp only [baseDelayMs]
    omega
  · exact fun o2 rc2 => retryGo_attempts_le o2 (rc2 + 1) 0

/-- C3 witness: with retry count 3 and a constantly failing retriable
fetch, the loop makes 4 attempts, sleeps 500, 1000 and 1500
milliseconds, the delays are strictly increasing, and the final error
is raised. -/
theorem c3_witness :
    getBills (fun _ => .error "boom") 3 =
      ⟨.error "boom", 4, [500, 1000, 1500]⟩ ∧
    ([500, 1000, 1500] : List Nat).Pairwise (· < ·) := by
  have h := c3_retry_budget (fun _ => .error "boom") (fun _ => "boom") 3
    (fun _ => rfl) (fun _ => rfl)
  exact ⟨h.1, h.2.1⟩

/-- A string equal to a marked concatenation starts with the marker. -/
theorem strStartsWith_of_eq_append (s x y : String) (h : s = x ++ y) :
    strStartsWith s x = true := by
  rw [h]
  exact strStartsWith_append_self x y

/-- C1 counterexample environment: a DXC chain whose very first
redirect hop answers HTTP 401. -/
def c1envDXC : DXCEnv :=
  ⟨⟨401, none, none⟩, ⟨302, none, none⟩, ⟨302, none, none⟩, ⟨302, none, none⟩,
   ⟨true, 200, okCode, none⟩, "room", ⟨true, 200, okCode, none⟩, 0,
   ⟨true, 200, okCode, none⟩, "1.0"⟩

set_option maxRecDepth 8192 in
/-- C1: refuted as stated.  An HTTP 401 on the first DXC redirect hop
is thrown as a plain status-mismatch error without the non-retriable
marker, so the retry loop runs all four attempts with all three
inter-attempt delays instead of aborting after one, and the surfaced
error is not distinguishable by the marker. -/
theorem c1_counterexample :
    c1envDXC.redirectResp.status = 401 ∧
    getBillsDXC c1envDXC = .error "Get redirect failed: Expected 302, got 401" ∧
    getBills (fun _ => getBillsDXC c1envDXC) 3 =
      ⟨.error "Get redirect failed: Expected 302, got 401", 4, [500, 1000, 1500]⟩ ∧
    strStartsWith "Get redirect failed: Expected 302, got 401" noRetryMarker
      = false := by
  refine ⟨rfl, ?_, ?_, by decide⟩
  · with_unfolding_all exact of_decide_eq_true rfl
  · with_unfolding_all exact of_decide_eq_true rfl

/-- C1 amended: an error already carrying the non-retriable marker
aborts the retry loop after exactly one attempt with no delay and is
surfaced with the marker intact, distinguishing it from retriable
failures, whose surfaced message has the marker stripped; a 401 on a
GZIC fee-item sub-request produces such a marked error, as does a 401
on the DXC userInfo data endpoint reached after a successful redirect
chain — but a 401 on a DXC redirect hop does not, as the
counterexample shows. -/
theorem c1_noretry_behaviour :
    (∀ (outcomes : Nat → Except String BillResult) (rc : Nat) (e : String),
      outcomes 0 = .error e → strStartsWith e noRetryMarker = true →
      getBills outcomes rc = ⟨.error e, 1, []⟩) ∧
    (∀ r1 r2 r3 : GZICResp, r1.http.ok = false → r1.http.status = 401 →
      getBillsGZIC r1 r2 r3 = .error (httpFailMsg r1.http) ∧
      strStartsWith (httpFailMsg r1.http) noRetryMarker = true) ∧
    (∀ env : DXCEnv,
      env.redirectResp.status = 302 →
      (httpToHttps env.redirectResp.location).isSome = true →
      (jsessionFrom env.thirdLoginResp.setCookie).isSome = true →
      env.thirdLoginResp.status = 302 →
      (httpToHttps env.thirdLoginResp.location).isSome = true →
      env.authorizeResp.status = 302 →
      (httpToHttps env.authorizeResp.location).isSome = true →
      env.getCodeResp.status = 302 →
      env.getCodeResp.location = some indexPath →
      env.userInfoResp.ok = false → env.userInfoResp.status = 401 →
      getBillsDXC env = .error (dxcHttpFailMsg userInfoTag 401) ∧
      strStartsWith (dxcHttpFailMsg userInfoTag 401) noRetryMarker = true) := by
  refine ⟨?_, ?_, ?_⟩
  · intro outcomes rc e h0 h1
    rw [getBills, retryGo_succ, h0]
    simp [h1]
  · intro r1 r2 r3 hok hst
    constructor
    · simp [getBillsGZIC, List.find?_cons, hok]
    · refine strStartsWith_of_eq_append _ _
        ("HTTP " ++ (toString r1.http.status ++ (": " ++ r1.http.statusText))) ?_
      simp [httpFailMsg, hst, String.append_assoc]
  · intro env h1 h2 h3 h4 h5 h6 h7 h8 h9 h10 h11
    obtain ⟨u1, hu1⟩ := Option.isSome_iff_exists.mp h2
    obtain ⟨js, hjs⟩ := Option.isSome_iff_exists.mp h3
    obtain ⟨u2, hu2⟩ := Option.isSome_iff_exists.mp h5
    obtain ⟨u3, hu3⟩ := Option.isSome_iff_exists.mp h7
    constructor
    · simp [getBillsDXC, h1, hu1, hjs, h4, hu2, h6, hu3, h8, h9, h10, h11]
    · decide

/-- C1 witness for the amended statement: a GZIC fetch whose first
fee-item response is a 401 yields a marker-carrying error, and the
retry loop aborts on it after exactly one attempt with no delay. -/
theorem c1_witness :
    getBillsGZIC ⟨⟨false, 401, "Unauthorized"⟩, ⟨"", 200, "", ""⟩⟩
        ⟨⟨true, 200, "OK"⟩, ⟨"", 200, "1", "r"⟩⟩
        ⟨⟨true, 200, "OK"⟩, ⟨"", 200, "1", "r"⟩⟩ =
      .error "[NORETRY]HTTP 401: Unauthorized" ∧
    strStartsWith "[NORETRY]HTTP 401: Unauthorized" noRetryMarker = true ∧
    getBills (fun _ => .error "[NORETRY]HTTP 401: Unauthorized") 3 =
      ⟨.error "[NORETRY]HTTP 401: Unauthorized", 1, []⟩ := by
  refine ⟨?_, ?_, ?_⟩
  · exact (c1_noretry_behaviour.2.1 ⟨⟨false, 401, "Unauthorized"⟩, ⟨"", 200, "", ""⟩⟩
      ⟨⟨true, 200, "OK"⟩, ⟨"", 200, "1", "r"⟩⟩
      ⟨⟨true, 200, "OK"⟩, ⟨"", 200, "1", "r"⟩⟩ rfl rfl).1
  · exact (c1_noretry_behaviour.2.1 ⟨⟨false, 401, "Unauthorized"⟩, ⟨"", 200, "", ""⟩⟩
      ⟨⟨true, 200, "OK"⟩, ⟨"", 200, "1", "r"⟩⟩
      ⟨⟨true, 200, "OK"⟩, ⟨"", 200, "1", "r"⟩⟩ rfl rfl).2
  · exact c1_noretry_behaviour.1 (fun _ => .error "[NORETRY]HTTP 401: Unauthorized")
      3 "[NORETRY]HTTP 401: Unauthorized" rfl (by decide)

/-- C7 witness: with a cached token present, credentials stored and
both fetch calls failing, the run invalidates once, logs in once,
fetches exactly twice, and surfaces the second failure. -/
theorem c7_witness :
    getBillsWithTokenRefresh
      ⟨some ("a", "t", "l"), some ⟨"card", "pw"⟩, some Campus.GZIC,
        fun _ => some ⟨"a2", "t2", "l2", 3600⟩,
        fun n => if n = 0 then .error "boom" else .error "boom2"⟩ =
      ⟨.error "boom2", 2, 1, 1⟩ :=
  c7_second_chance
    ⟨some ("a", "t", "l"), some ⟨"card", "pw"⟩, some Campus.GZIC,
      fun _ => some ⟨"a2", "t2", "l2", 3600⟩,
      fun n => if n = 0 then .error "boom" else .error "boom2"⟩
    ("a", "t", "l") Campus.GZIC ⟨"card", "pw"⟩ ⟨"a2", "t2", "l2", 3600⟩
    rfl rfl rfl ⟨"boom", rfl⟩ rfl

/-- C4: refuted as stated.  The field below contains no digit at all,
hence no numeric substring, yet extraction does not yield 0: the
pattern matches the bare minus sign, parseFloat turns it into NaN, and
NaN is what the fetch stores. -/
theorem c4_counterexample :
    parseBill "元-元" false = none ∧
    ("元-元".data.all (fun c => !c.isDigit)) = true ∧
    (none : Option ℚ) ≠ some 0 := by
  refine ⟨by decide, by decide, by simp⟩

/-- C4 amended: extraction takes the first match of the pattern class
of minus, dot and digits on the whitespace-trimmed text, for water on
the last comma segment only, and parseFloats that match; when the
pattern finds no match anywhere the value is 0; but a match without any
digit, such as a bare minus sign, parseFloats to NaN rather than 0.
The example field still extracts to -12.5. -/
theorem c4_extraction (s m : String) :
    (firstNumRun (trimStr s) = none → parseBill s false = some 0) ∧
    (firstNumRun (trimStr s) = some m → parseBill s false = parseFloat m) ∧
    parseBill s true = parseBill (lastCommaSeg s) false ∧
    parseBill "实时金额：-12.50元" false = some (-12.5 : ℚ) := by
  refine ⟨?_, ?_, rfl, ?_⟩
  · intro h
    simp only [parseBill, Bool.false_eq_true, if_false, h]
    with_unfolding_all exact of_decide_eq_true rfl
  · intro h
    simp only [parseBill, Bool.false_eq_true, if_false, h]
  · with_unfolding_all exact of_decide_eq_true rfl

/-- C4 witness: a field with no pattern match extracts to 0, a field
with the match 1.5 extracts to 1.5, and the water route reads the last
comma segment. -/
theorem c4_witness :
    parseBill "abc" false = some 0 ∧
    parseBill "x 1.5 y" false = parseFloat "1.5" ∧
    parseBill "a,b, 3.5 元" true = parseBill (lastCommaSeg "a,b, 3.5 元") false := by
  refine ⟨?_, ?_, ?_⟩
  · exact (c4_extraction "abc" "").1 (by decide)
  · exact (c4_extraction "x 1.5 y" "1.5").2.1 (by decide)
  · exact (c4_extraction "a,b, 3.5 元" "").2.2.1

/-- C5 counterexample response: not ok at the HTTP level while its body
carries the non-success application code 500. -/
def c5bad : GZICResp := ⟨⟨false, 503, "Service Unavailable"⟩, ⟨"err", 500, "x", "r"⟩⟩

/-- C5 ok response with success code. -/
def c5ok : GZICResp := ⟨⟨true, 200, "OK"⟩, ⟨"ok", 200, "1", "r"⟩⟩

/-- C5: refuted as stated.  A sub-response carrying a non-success
application code while failing at the HTTP level makes the fetch fail
with the HTTP status error, not with an application error carrying the
offending code and message. -/
theorem c5_counterexample :
    c5bad.body.code ≠ 200 ∧
    getBillsGZIC c5bad c5ok c5ok = .error "HTTP 503: Service Unavailable" ∧
    strStartsWith "HTTP 503: Service Unavailable" apiErrorTag = false := by
  refine ⟨by decide, ?_, by decide⟩
  with_unfolding_all exact of_decide_eq_true rfl

/-- C5 amended: when all three sub-responses are ok at the HTTP level,
the first body carrying a code other than 200 fails the fetch with an
application error carrying that code and message and no balance values
are surfaced; and a parsed result is produced only when all three
responses are ok and all three codes equal 200. -/
theorem c5_api_error (r1 r2 r3 : GZICResp) :
    (∀ bad, r1.http.ok = true → r2.http.ok = true → r3.http.ok = true →
      [r1.body, r2.body, r3.body].find? (fun d => d.code != 200) = some bad →
      getBillsGZIC r1 r2 r3 = .error (apiFailMsg bad) ∧
      strStartsWith (apiFailMsg bad) apiErrorTag = true) ∧
    (∀ res, getBillsGZIC r1 r2 r3 = .ok res →
      r1.http.ok = true ∧ r2.http.ok = true ∧ r3.http.ok = true ∧
      r1.body.code = 200 ∧ r2.body.code = 200 ∧ r3.body.code = 200) := by
  constructor
  · intro bad h1 h2 h3 hbad
    constructor
    · simp [getBillsGZIC, List.find?_cons, h1, h2, h3, hbad]
    · refine strStartsWith_of_eq_append _ _
        (toString bad.code ++ (": " ++ bad.msg)) ?_
      simp [apiFailMsg, String.append_assoc]
  · intro res h
    rw [getBillsGZIC] at h
    cases hf : [r1, r2, r3].find? (fun r => !r.http.ok) with
    | some bad => rw [hf] at h; exact absurd h (by simp)
    | none =>
      rw [hf] at h
      have hok := List.find?_eq_none.mp hf
      cases hg : [r1.body, r2.body, r3.body].find? (fun d => d.code != 200) with
      | some bad => rw [hg] at h; exact absurd h (by simp)
      | none =>
        have hcode := List.find?_eq_none.mp hg
        have e1 := hok r1 (by simp)
        have e2 := hok r2 (by simp)
        have e3 := hok r3 (by simp)
        have f1 := hcode r1.body (by simp)
        have f2 := hcode r2.body (by simp)
        have f3 := hcode r3.body (by simp)
        replace e1 : r1.http.ok = true := by revert e1; cases r1.http.ok <;> simp
        replace e2 : r2.http.ok = true := by revert e2; cases r2.http.ok <;> simp
        replace e3 : r3.http.ok = true := by revert e3; cases r3.http.ok <;> simp
        simp only [bne_iff_ne, ne_eq, not_not] at f1 f2 f3
        exact ⟨e1, e2, e3, f1, f2, f3⟩

/-- C5 witness for the amended statement: three ok responses where the
second body carries code 500 fail with the application error naming
code 500, and a fully successful triple parses, witnessing that a
result implies all codes 200. -/
theorem c5_witness :
    getBillsGZIC c5ok ⟨⟨true, 200, "OK"⟩, ⟨"bad", 500, "x", "r"⟩⟩ c5ok =
      .error "API Error 500: bad" ∧
    strStartsWith "API Error 500: bad" apiErrorTag = true := by
  constructor
  · exact ((c5_api_error c5ok ⟨⟨true, 200, "OK"⟩, ⟨"bad", 500, "x", "r"⟩⟩ c5ok).1
      ⟨"bad", 500, "x", "r"⟩ rfl rfl rfl (by decide)).1
  · exact ((c5_api_error c5ok ⟨⟨true, 200, "OK"⟩, ⟨"bad", 500, "x", "r"⟩⟩ c5ok).1
      ⟨"bad", 500, "x", "r"⟩ rfl rfl rfl (by decide)).2

/-- C6: in the DXC redirect chain, a third hop answering any status
other than 302 after the first two hops succeeded fails with the
bad-status message naming that hop and status, while a second hop whose
response yields no session-identifier cookie fails with the
missing-cookie message; for the claimed instance of a 200 on hop three
the two errors are distinct strings, and on hop two the missing-cookie
message also differs from every bad-status message of that hop. -/
theorem c6_hop_errors :
    (∀ env : DXCEnv,
      env.redirectResp.status = 302 →
      (httpToHttps env.redirectResp.location).isSome = true →
      (jsessionFrom env.thirdLoginResp.setCookie).isSome = true →
      env.thirdLoginResp.status = 302 →
      (httpToHttps env.thirdLoginResp.location).isSome = true →
      env.authorizeResp.status = 200 →
      getBillsDXC env = .error (authorizeFailMsg 200)) ∧
    (∀ env : DXCEnv,
      env.redirectResp.status = 302 →
      (httpToHttps env.redirectResp.location).isSome = true →
      jsessionFrom env.thirdLoginResp.setCookie = none →
      getBillsDXC env = .error thirdLoginNoCookieMsg) ∧
    authorizeFailMsg 200 ≠ thirdLoginNoCookieMsg ∧
    authorizeFailMsg 200 ≠ thirdLoginFailMsg 200 := by
  refine ⟨?_, ?_, by decide, by decide⟩
  · intro env h1 h2 h3 h4 h5 h6
    obtain ⟨u1, hu1⟩ := Option.isSome_iff_exists.mp h2
    obtain ⟨js, hjs⟩ := Option.isSome_iff_exists.mp h3
    obtain ⟨u2, hu2⟩ := Option.isSome_iff_exists.mp h5
    simp [getBillsDXC, h1, hu1, hjs, h4, hu2, h6]
  · intro env h1 h2 h3
    obtain ⟨u1, hu1⟩ := Option.isSome_iff_exists.mp h2
    simp [getBillsDXC, h1, hu1, h3]

/-- C6 witness environments: one chain dying on hop three with a 200,
one dying on hop two with no session cookie in the response. -/
def c6envBadStatus : DXCEnv :=
  ⟨⟨302, some "https://a/1", none⟩, ⟨302, some "https://a/2", some "JSESSIONID=abc; Path=/"⟩,
   ⟨200, none, none⟩, ⟨302, none, none⟩, ⟨true, 200, okCode, none⟩, "room",
   ⟨true, 200, okCode, none⟩, 0, ⟨true, 200, okCode, none⟩, "1.0"⟩

/-- C6 second witness environment, missing the session cookie. -/
def c6envNoCookie : DXCEnv :=
  ⟨⟨302, some "https://a/1", none⟩, ⟨302, some "https://a/2", some "Path=/; HttpOnly"⟩,
   ⟨302, none, none⟩, ⟨302, none, none⟩, ⟨true, 200, okCode, none⟩, "room",
   ⟨true, 200, okCode, none⟩, 0, ⟨true, 200, okCode, none⟩, "1.0"⟩

/-- C6 witness: the two concrete failing chains produce the two
distinct errors. -/
theorem c6_witness :
    getBillsDXC c6envBadStatus = .error (authorizeFailMsg 200) ∧
    getBillsDXC c6envNoCookie = .error thirdLoginNoCookieMsg := by
  constructor
  · exact c6_hop_errors.1 c6envBadStatus rfl (by decide) (by decide) rfl
      (by decide) rfl
  · exact c6_hop_errors.2.1 c6envNoCookie rfl (by decide) (by decide)

/-- With positive batch size and enough fuel, concatenating the
batches gives back the original list. -/
theorem batchesGo_flatten {α : Type} (b : Nat) (hb : 0 < b) :
    ∀ fuel (l : List α), l.length ≤ fuel → (batchesGo b fuel l).flatten = l := by
  intro fuel
  induction fuel with
  | zero =>
    intro l hl
    have hnil : l = [] := List.length_eq_zero.mp (Nat.le_zero.mp hl)
    subst hnil
    rfl
  | succ k ih =>
    intro l hl
    cases l with
    | nil => rfl
    | cons x xs =>
      show ((x :: xs).take b :: batchesGo b k ((x :: xs).drop b)).flatten = x :: xs
      rw [List.flatten_cons, ih ((x :: xs).drop b) ?_]
      · exact List.take_append_drop b (x :: xs)
      · rw [List.length_drop]
        simp only [List.length_cons] at hl ⊢
        omega

/-- With positive batch size and enough fuel, the number of batches is
the length divided by the batch size, rounded up. -/
theorem batchesGo_length {α : Type} (b : Nat) (hb : 0 < b) :
    ∀ fuel (l : List α), l.length ≤ fuel →
      (batchesGo b fuel l).length = (l.length + b - 1) / b := by
  intro fuel
  induction fuel with
  | zero =>
    intro l hl
    have hnil : l = [] := List.length_eq_zero.mp (Nat.le_zero.mp hl)
    subst hnil
    simp only [batchesGo, List.length_nil, Nat.zero_add]
    symm
    exact Nat.div_eq_of_lt (by omega)
  | succ k ih =>
    intro l hl
    cases l with
    | nil =>
      simp only [batchesGo, List.length_nil, Nat.zero_add]
      symm
      exact Nat.div_eq_of_lt (by omega)
    | cons x xs =>
      have hdl : ((x :: xs).drop b).length ≤ k := by
        rw [List.length_drop]
        simp only [List.length_cons] at hl ⊢
        omega
      show ((x :: xs).take b :: batchesGo b k ((x :: xs).drop b)).length = _
      rw [List.length_cons, ih _ hdl, List.length_drop]
      have hn : 1 ≤ (x :: xs).length := by simp
      have h1 : (x :: xs).length + b - 1 = ((x :: xs).length - 1) + b := by omega
      rw [h1, Nat.add_div_right _ hb]
      congr 1
      rcases le_or_lt (x :: xs).length b with hc | hc
      · have e0 : (x :: xs).length - b = 0 := by omega
        rw [e0, Nat.div_eq_of_lt (by omega), Nat.div_eq_of_lt (by omega)]
      · have h2 : (x :: xs).length - b + b - 1 = ((x :: xs).length - b - 1) + b := by
          omega
        have h3 : (x :: xs).length - 1 = ((x :: xs).length - b - 1) + b := by omega
        rw [h2, h3]

/-- With positive batch size and enough fuel, every batch is non-empty
of size at most the batch size, and every batch except possibly the
last has exactly the batch size. -/
theorem batchesGo_sizes {α : Type} (b : Nat) (hb : 0 < b) :
    ∀ fuel (l : List α), l.length ≤ fuel →
      (∀ c ∈ batchesGo b fuel l, c.length ≤ b ∧ c ≠ []) ∧
      (∀ c ∈ (batchesGo b fuel l).dropLast, c.length = b) := by
  intro fuel
  induction fuel with
  | zero =>
    intro l hl
    have hnil : l = [] := List.length_eq_zero.mp (Nat.le_zero.mp hl)
    subst hnil
    exact ⟨fun c hc => by simp [batchesGo] at hc,
           fun c hc => by simp [batchesGo] at hc⟩
  | succ k ih =>
    intro l hl
    cases l with
    | nil =>
      exact ⟨fun c hc => by simp [batchesGo] at hc,
             fun c hc => by simp [batchesGo] at hc⟩
    | cons x xs =>
      have hstep : batchesGo b (k + 1) (x :: xs) =
          (x :: xs).take b :: batchesGo b k ((x :: xs).drop b) := rfl
      have hdl : ((x :: xs).drop b).length ≤ k := by
        rw [List.length_drop]
        simp only [List.length_cons] at hl ⊢
        omega
      obtain ⟨ih1, ih2⟩ := ih ((x :: xs).drop b) hdl
      have htake_ne : (x :: xs).take b ≠ [] := by
        obtain ⟨m, rfl⟩ := Nat.exists_eq_add_of_lt hb
        simp [List.take_succ_cons]
      constructor
      · intro c hc
        rw [hstep] at hc
        rcases List.mem_cons.mp hc with rfl | hc2
        · exact ⟨by rw [List.length_take]; omega, htake_ne⟩
        · exact ih1 c hc2
      · intro c hc
        rw [hstep] at hc
        cases hrest : batchesGo b k ((x :: xs).drop b) with
        | nil => rw [hrest] at hc; simp at hc
        | cons y ys =>
          rw [hrest] at hc
          rw [List.dropLast_cons₂] at hc
          rcases List.mem_cons.mp hc with rfl | hc2
          · have hne : (x :: xs).drop b ≠ [] := by
              intro h0
              rw [h0] at hrest
              exact absurd hrest (by simp [batchesGo])
            have hlt : b < (x :: xs).length := by
              by_contra hle
              push_neg at hle
              exact hne (List.drop_eq_nil_of_le hle)
            rw [List.length_take]
            omega
          · rw [hrest] at ih2
            exact ih2 c hc2

/-- C9: for a positive batch size, the scheduler partitions the bound
accounts into ceiling of n over b batches in order, all non-empty of
size at most b and all but possibly the last of size exactly b, and
processing is equivalent to mapping the per-account collector over the
whole list, so every account is processed independently; an account
fails on its own, exactly when it has no credentials or its own fetch
fails, without affecting any other account or batch. -/
theorem c9_batched_collection (creds : String → Option Creds)
    (envOf : String → RefreshEnv) (b : Nat) (hb : 0 < b)
    (students : List Student) :
    (batches b students).flatten = students ∧
    (batches b students).length = (students.length + b - 1) / b ∧
    (∀ c ∈ batches b students, c.length ≤ b ∧ c ≠ []) ∧
    (∀ c ∈ (batches b students).dropLast, c.length = b) ∧
    collectData creds envOf b students =
      students.map (collectStudentData creds envOf) ∧
    (∀ s : Student, (collectStudentData creds envOf s).success = true ↔
      ((creds s.qq_id).isSome = true ∧
        exceptOk ((getBillsWithTokenRefresh (envOf s.qq_id)).result) = true)) := by
  refine ⟨batchesGo_flatten b hb students.length students le_rfl,
    batchesGo_length b hb students.length students le_rfl,
    (batchesGo_sizes b hb students.length students le_rfl).1,
    (batchesGo_sizes b hb students.length students le_rfl).2, ?_, ?_⟩
  · show ((batches b students).map
        (fun batch => batch.map (collectStudentData creds envOf))).flatten = _
    rw [← List.map_flatten, batches,
      batchesGo_flatten b hb students.length students le_rfl]
  · intro s
    cases hc : creds s.qq_id <;>
      cases hr : (getBillsWithTokenRefresh (envOf s.qq_id)).result <;>
        simp [collectStudentData, hc, hr, exceptOk]

/-- C9 witness population of 12 bound accounts. -/
def c9students : List Student :=
  [⟨"1", none⟩, ⟨"2", none⟩, ⟨"3", none⟩, ⟨"4", none⟩, ⟨"5", none⟩, ⟨"6", none⟩,
   ⟨"7", none⟩, ⟨"8", none⟩, ⟨"9", none⟩, ⟨"10", none⟩, ⟨"11", none⟩, ⟨"12", none⟩]

/-- C9 witness credential store in which account 7, inside the second
batch, is forced to fail. -/
def c9creds : String → Option Creds :=
  fun q => if q = "7" then none else some ⟨"card", "pw"⟩

/-- C9 witness fetch environment in which every fetch succeeds. -/
def c9env : String → RefreshEnv :=
  fun _ =>
    ⟨some ("a", "t", "l"), some ⟨"card", "pw"⟩, some Campus.GZIC, fun _ => none,
     fun _ => .ok ⟨some 1, some 2, some 3, "room"⟩⟩

/-- C9 witness: 12 accounts with batch size 5 give exactly the batch
sizes 5, 5 and 2, the batches concatenate back to the account list,
collection equals the independent per-account map, and the forced
failure of account 7 in batch two leaves every other account,
including all of batch three, processed successfully. -/
theorem c9_witness :
    ((batches 5 c9students).map List.length) = [5, 5, 2] ∧
    (batches 5 c9students).flatten = c9students ∧
    collectData c9creds c9env 5 c9students =
      c9students.map (collectStudentData c9creds c9env) ∧
    (collectStudentData c9creds c9env ⟨"7", none⟩).success = false ∧
    ((collectData c9creds c9env 5 c9students).map (fun d => d.success)) =
      [true, true, true, true, true, true, false, true, true, true, true, true] := by
  refine ⟨by decide, ?_, ?_, by decide, ?_⟩
  · exact (c9_batched_collection c9creds c9env 5 (by decide) c9students).1
  · exact (c9_batched_collection c9creds c9env 5 (by decide) c9students).2.2.2.2.1
  · with_unfolding_all exact of_decide_eq_true rfl

end NotiPay
